import Mathlib

/-
Verification of the bitbrowser-automation repository against its specification.

The Python sources (auto_bind_card.py and web/backend/routers/accounts.py) are
shallowly embedded below.  Pure string helpers are translated directly over
`List Char` (modelling CPython string semantics on ASCII text, so that every
definition evaluates in the kernel).  The browser-driving control flow of
auto_bind_card.py is embedded as functions over explicit "world" records that
fix the outcome of every external interaction (selector scans, clicks that may
raise, frame discovery, account-store calls); the side effects that matter
(AccountManager.move_to_subscribed calls, input fills, closeBrowser calls,
log-file lines) are collected in trace records.  A Python exception at a given
site is modelled by a Bool / Option String oracle field naming that site; each
`except` block becomes the corresponding branch of the embedding.
-/

/-! ### Python string primitives -/

/-- Numeric value of an ASCII digit character, as Python int() sees it. -/
def digitVal (c : Char) : Nat := c.toNat - 48

/-- Python int() applied to a string consisting of decimal digit characters
(list form); int("") is never reached in the source because it is guarded,
and the guard value 0 coincides with the fold on the empty list. -/
def natOfDigits (l : List Char) : Nat := l.foldl (fun a c => a * 10 + digitVal c) 0

/-- Python s[-k:] on a list: the last k elements (the whole list when shorter). -/
def takeLast (l : List Char) (k : Nat) : List Char := l.drop (l.length - k)

/-- Python str.strip(): drop leading and trailing whitespace. -/
def stripChars (l : List Char) : List Char :=
  ((l.dropWhile Char.isWhitespace).reverse.dropWhile Char.isWhitespace).reverse

/-- Python str(n) for a natural number: big-endian decimal digits.  Written
with fuel so that it is structurally recursive and kernel-evaluable; fuel
n + 1 always suffices since n / 10 < n for n ≥ 10. -/
def pyReprCore (fuel n : Nat) : List Char :=
  match fuel with
  | 0 => []
  | fuel + 1 =>
    if n < 10 then [Nat.digitChar n]
    else pyReprCore fuel (n / 10) ++ [Nat.digitChar (n % 10)]

/-- Python str(n): decimal representation of a natural number. -/
def pyRepr (n : Nat) : List Char := pyReprCore (n + 1) n

theorem pyReprCore_irrel : ∀ (f₁ f₂ n : Nat), n < f₁ → n < f₂ →
    pyReprCore f₁ n = pyReprCore f₂ n := by
  intro f₁
  induction f₁ with
  | zero => intro f₂ n h _; exact absurd h (Nat.not_lt_zero n)
  | succ f ih =>
    intro f₂ n h1 h2
    cases f₂ with
    | zero => exact absurd h2 (Nat.not_lt_zero n)
    | succ g =>
      simp only [pyReprCore]
      by_cases hn : n < 10
      · simp [hn]
      · simp only [hn, if_false]
        rw [ih g (n / 10) (by omega) (by omega)]

theorem pyRepr_eq (n : Nat) : pyRepr n =
    if n < 10 then [Nat.digitChar n]
    else pyRepr (n / 10) ++ [Nat.digitChar (n % 10)] := by
  show pyReprCore (n + 1) n = _
  by_cases hn : n < 10
  · simp only [pyReprCore, hn, if_true]
  · simp only [pyReprCore, hn, if_false]
    rw [pyReprCore_irrel n (n / 10 + 1) (n / 10) (by omega) (by omega)]
    rfl

theorem pyRepr_ne_nil (n : Nat) : pyRepr n ≠ [] := by
  rw [pyRepr_eq]; split <;> simp

theorem digitVal_digitChar {n : Nat} (h : n < 10) : digitVal (Nat.digitChar n) = n := by
  interval_cases n <;> decide

theorem natOfDigits_append (l : List Char) (c : Char) :
    natOfDigits (l ++ [c]) = natOfDigits l * 10 + digitVal c := by
  simp [natOfDigits, List.foldl_append]

theorem natOfDigits_singleton (c : Char) : natOfDigits [c] = digitVal c := by
  simp [natOfDigits]

theorem takeLast_append_one (l : List Char) (c : Char) :
    takeLast (l ++ [c]) 1 = [c] := by
  unfold takeLast
  have hlen : (l ++ [c]).length - 1 = l.length := by simp
  rw [hlen]
  simp

theorem takeLast_append_two (l : List Char) (c : Char) (h : 1 ≤ l.length) :
    takeLast (l ++ [c]) 2 = takeLast l 1 ++ [c] := by
  unfold takeLast
  have hlen : (l ++ [c]).length - 2 = l.length - 1 := by
    simp only [List.length_append, List.length_cons, List.length_nil]
    omega
  rw [hlen, List.drop_append_of_le_length (by omega)]

theorem natOfDigits_takeLast_one (n : Nat) :
    natOfDigits (takeLast (pyRepr n) 1) = n % 10 := by
  rw [pyRepr_eq]
  by_cases h : n < 10
  · have h2 : n % 10 = n := Nat.mod_eq_of_lt h
    simp [h, takeLast, natOfDigits_singleton, digitVal_digitChar h, h2]
  · simp only [h, if_false]
    rw [takeLast_append_one, natOfDigits_singleton,
      digitVal_digitChar (Nat.mod_lt n (by omega))]

theorem natOfDigits_takeLast_two (n : Nat) :
    natOfDigits (takeLast (pyRepr n) 2) = n % 100 := by
  rw [pyRepr_eq]
  by_cases h : n < 10
  · have h2 : n % 100 = n := Nat.mod_eq_of_lt (by omega)
    simp [h, takeLast, natOfDigits_singleton, digitVal_digitChar h, h2]
  · simp only [h, if_false]
    have hp : 1 ≤ (pyRepr (n / 10)).length :=
      List.length_pos.mpr (pyRepr_ne_nil (n / 10))
    rw [takeLast_append_two _ _ hp, natOfDigits_append, natOfDigits_takeLast_one,
      digitVal_digitChar (Nat.mod_lt n (by omega))]
    omega

/-! ### _normalize_exp_parts (auto_bind_card.py lines 39-56) -/

/-- Python str.zfill(2): left-pad with zeros to length at least 2. -/
def zfill2 (l : List Char) : List Char :=
  if l.length < 2 then List.replicate (2 - l.length) '0' ++ l else l

theorem natOfDigits_replicate_zero (k : Nat) (l : List Char) :
    natOfDigits (List.replicate k '0' ++ l) = natOfDigits l := by
  induction k with
  | zero => rfl
  | succ m ih =>
    have hc : List.replicate (m + 1) '0' ++ l = '0' :: (List.replicate m '0' ++ l) := by
      simp [List.replicate_succ]
    rw [hc]
    show List.foldl _ (0 * 10 + digitVal '0') _ = _
    have hz : 0 * 10 + digitVal '0' = 0 := by decide
    rw [hz]
    exact ih

theorem natOfDigits_zfill2 (l : List Char) : natOfDigits (zfill2 l) = natOfDigits l := by
  unfold zfill2
  split
  · exact natOfDigits_replicate_zero _ _
  · rfl

/-- Zero-padding of a single-digit expiry component (lines 45-48). -/
def pad2 (l : List Char) : List Char := if l.length = 1 then '0' :: l else l

/-- Digit extraction from an expiry component: strip, keep digits (lines 41-42). -/
def expDigits (s : String) : List Char := (stripChars s.toList).filter Char.isDigit

/-- Year digit extraction including the 4-or-more-digit truncation to the last
two digits (lines 42-44; only the year is truncated). -/
def expYearDigits (s : String) : List Char :=
  if 4 ≤ (expDigits s).length then takeLast (expDigits s) 2 else expDigits s

/-- Embedding of _normalize_exp_parts (auto_bind_card.py lines 39-56).  The
month is digit-filtered and padded; the year is digit-filtered, truncated to
its last two digits when it has four or more, and padded.  When the month
value exceeds 12 while the year value lies in [1, 12] the pair is swapped,
the new month being the year zero-filled and the new year being the last two
characters of str(month value).  The int() calls cannot raise ValueError
because their arguments contain only digits, so the try/except at lines 49-53
contributes no extra branch. -/
def normalize_exp_parts (exp_month exp_year : String) : String × String :=
  if 12 < natOfDigits (pad2 (expDigits exp_month)) ∧
      1 ≤ natOfDigits (pad2 (expYearDigits exp_year)) ∧
      natOfDigits (pad2 (expYearDigits exp_year)) ≤ 12 then
    (String.mk (zfill2 (pad2 (expYearDigits exp_year))),
     String.mk (takeLast (pyRepr (natOfDigits (pad2 (expDigits exp_month)))) 2))
  else
    (String.mk (pad2 (expDigits exp_month)), String.mk (pad2 (expYearDigits exp_year)))

/-- Claim C1: _normalize_exp_parts maps ("25","03") to ("03","25"), ("03","25")
to itself and ("3","2026") to ("03","26"); for every input pair, when the month
value is at most 12 the order is unchanged (month zero-padded, year truncated
to its last two digits when 4 or more digits and zero-padded), and when the
month value exceeds 12 while the year value lies in [1,12] the two values are
swapped: the returned month carries the year's numeric value and the returned
year carries the month's value reduced to its last two decimal digits (the
identity for any two-digit month, which is all the MM/YY format can carry). -/
theorem c1_normalize_exp_parts :
    (normalize_exp_parts "25" "03" = ("03", "25") ∧
     normalize_exp_parts "03" "25" = ("03", "25") ∧
     normalize_exp_parts "3" "2026" = ("03", "26")) ∧
    (∀ exp_month exp_year : String,
      (natOfDigits (pad2 (expDigits exp_month)) ≤ 12 →
        normalize_exp_parts exp_month exp_year =
          (String.mk (pad2 (expDigits exp_month)),
           String.mk (pad2 (expYearDigits exp_year)))) ∧
      (12 < natOfDigits (pad2 (expDigits exp_month)) →
       1 ≤ natOfDigits (pad2 (expYearDigits exp_year)) →
       natOfDigits (pad2 (expYearDigits exp_year)) ≤ 12 →
        normalize_exp_parts exp_month exp_year =
          (String.mk (zfill2 (pad2 (expYearDigits exp_year))),
           String.mk (takeLast (pyRepr (natOfDigits (pad2 (expDigits exp_month)))) 2)) ∧
        natOfDigits (zfill2 (pad2 (expYearDigits exp_year))) =
          natOfDigits (pad2 (expYearDigits exp_year)) ∧
        natOfDigits (takeLast (pyRepr (natOfDigits (pad2 (expDigits exp_month)))) 2) =
          natOfDigits (pad2 (expDigits exp_month)) % 100)) := by
  constructor
  · exact ⟨by decide, by decide, by decide⟩
  · intro m y
    constructor
    · intro hm
      unfold normalize_exp_parts
      rw [if_neg (fun hc => by omega)]
    · intro h1 h2 h3
      unfold normalize_exp_parts
      rw [if_pos ⟨h1, h2, h3⟩]
      exact ⟨rfl, natOfDigits_zfill2 _, natOfDigits_takeLast_two _⟩

/-- Witness for C1: instantiating the swap clause at ("25","03"), whose month
value 25 exceeds 12 while the year value 3 lies in [1,12]. -/
theorem c1_normalize_exp_parts_witness :
    12 < natOfDigits (pad2 (expDigits "25")) ∧
    natOfDigits (takeLast (pyRepr (natOfDigits (pad2 (expDigits "25")))) 2) =
      natOfDigits (pad2 (expDigits "25")) % 100 :=
  ⟨by decide,
   ((c1_normalize_exp_parts.2 "25" "03").2 (by decide) (by decide) (by decide)).2.2⟩

/-! ### _split_account_line (web/backend/routers/accounts.py lines 22-33) -/

/-- Python substring test `sep in line` (list form): containsSub l sep is true
iff sep occurs contiguously in l (the empty sep occurs in every string). -/
def containsSub : List Char → List Char → Bool
  | [], sep => sep.isPrefixOf []
  | c :: rest, sep => sep.isPrefixOf (c :: rest) || containsSub rest sep

/-- Python str.split(sep) for a non-empty separator: non-overlapping splits,
left to right, keeping empty pieces.  Fuelled structural recursion; fuel
length + 1 suffices because each step consumes at least one character. -/
def pySplitSepCore (fuel : Nat) (sep l acc : List Char) : List (List Char) :=
  match fuel with
  | 0 => [acc.reverse]
  | fuel + 1 =>
    match l with
    | [] => [acc.reverse]
    | c :: rest =>
      if sep.isPrefixOf (c :: rest) then
        acc.reverse :: pySplitSepCore fuel sep (List.drop sep.length (c :: rest)) []
      else
        pySplitSepCore fuel sep rest (c :: acc)

/-- Python line.split(sep) for non-empty sep. -/
def pySplitSep (sep l : List Char) : List (List Char) :=
  pySplitSepCore (l.length + 1) sep l []

/-- Python str.split() with no argument: split on whitespace runs, discarding
empty pieces. -/
def pySplitWsCore : List Char → List Char → List (List Char)
  | [], acc => if acc.isEmpty then [] else [acc.reverse]
  | c :: rest, acc =>
    if c.isWhitespace then
      if acc.isEmpty then pySplitWsCore rest []
      else acc.reverse :: pySplitWsCore rest []
    else pySplitWsCore rest (c :: acc)

/-- Python line.split() (whitespace splitting). -/
def pySplitWs (l : List Char) : List (List Char) := pySplitWsCore l []

/-- Separator priority list tried in order when the caller-supplied separator
does not occur in the line (accounts.py line 27). -/
def sepPriority : List String := ["----", "---", "|", ",", ";", "\t"]

/-- First separator from the priority list that occurs in the line. -/
def firstFallbackSep (line : String) : Option String :=
  sepPriority.find? (fun s => containsSub line.toList s.toList)

/-- Embedding of _split_account_line (accounts.py lines 22-33): split on the
caller-supplied separator when it is non-empty and occurs in the line, else on
the first priority separator occurring in the line, else on whitespace; then
strip every part and drop the parts that are empty after stripping. -/
def split_account_line (line separator : String) : List String :=
  let parts : List (List Char) :=
    if separator ≠ "" ∧ containsSub line.toList separator.toList = true then
      pySplitSep separator.toList line.toList
    else
      match firstFallbackSep line with
      | some s => pySplitSep s.toList line.toList
      | none => pySplitWs line.toList
  (((parts.map stripChars).filter (fun p => !p.isEmpty)).map String.mk)

/-- Claim C8: _split_account_line splits on the caller-supplied separator when
it occurs in the line, otherwise on the first of ----, ---, |, comma,
semicolon, tab that occurs in the line, otherwise on whitespace, trimming the
parts; "a@x.com----pw----rec----secret" yields 4 parts (both with the caller
separator ---- and via the fallback), "a@x.com,pw" yields 2 parts via the
comma fallback, and a whitespace-separated line is split on whitespace. -/
theorem c8_split_account_line :
    (split_account_line "a@x.com----pw----rec----secret" "----" =
       ["a@x.com", "pw", "rec", "secret"] ∧
     split_account_line "a@x.com----pw----rec----secret" "" =
       ["a@x.com", "pw", "rec", "secret"] ∧
     split_account_line "a@x.com,pw" "----" = ["a@x.com", "pw"] ∧
     split_account_line "user@y.com pw2 rec2" "----" = ["user@y.com", "pw2", "rec2"]) ∧
    (∀ line sep : String, sep ≠ "" → containsSub line.toList sep.toList = true →
       split_account_line line sep =
         (((pySplitSep sep.toList line.toList).map stripChars).filter
            (fun p => !p.isEmpty)).map String.mk) ∧
    (∀ line sep s : String, (sep = "" ∨ containsSub line.toList sep.toList = false) →
       firstFallbackSep line = some s →
       split_account_line line sep =
         (((pySplitSep s.toList line.toList).map stripChars).filter
            (fun p => !p.isEmpty)).map String.mk) ∧
    (∀ line sep : String, (sep = "" ∨ containsSub line.toList sep.toList = false) →
       firstFallbackSep line = none →
       split_account_line line sep =
         (((pySplitWs line.toList).map stripChars).filter
            (fun p => !p.isEmpty)).map String.mk) := by
  refine ⟨⟨by decide, by decide, by decide, by decide⟩, ?_, ?_, ?_⟩
  · intro line sep h1 h2
    unfold split_account_line
    rw [if_pos ⟨h1, h2⟩]
  · intro line sep s hd hf
    have hcond : ¬(sep ≠ "" ∧ containsSub line.toList sep.toList = true) := by
      rcases hd with h | h
      · exact fun hc => hc.1 h
      · have h2 : containsSub line.data sep.data = false := h
        exact fun hc => by simp [h2] at hc
    unfold split_account_line
    rw [if_neg hcond, hf]
  · intro line sep hd hf
    have hcond : ¬(sep ≠ "" ∧ containsSub line.toList sep.toList = true) := by
      rcases hd with h | h
      · exact fun hc => hc.1 h
      · have h2 : containsSub line.data sep.data = false := h
        exact fun hc => by simp [h2] at hc
    unfold split_account_line
    rw [if_neg hcond, hf]

/-- Witness for C8: the caller-separator clause applied to a concrete line in
which the comma separator occurs. -/
theorem c8_split_account_line_witness :
    ("," ≠ "" ∧ containsSub "x@z.com,pw9".toList ",".toList = true) ∧
    split_account_line "x@z.com,pw9" "," =
      (((pySplitSep ",".toList "x@z.com,pw9".toList).map stripChars).filter
         (fun p => !p.isEmpty)).map String.mk :=
  ⟨⟨by decide, by decide⟩,
   c8_split_account_line.2.1 "x@z.com,pw9" "," (by decide) (by decide)⟩

/-! ### Data model of the automation inputs -/

/-- Account credentials as consumed by auto_bind_card.py.  A missing or falsy
dict entry is modelled by the empty string (Python truthiness). -/
structure Account where
  email : String
  password : String
  backup : String
  secret : String
deriving Repr, DecidableEq

/-- Card data dict: number, exp_month, exp_year, cvv, zip. -/
structure CardInfo where
  number : String
  exp_month : String
  exp_year : String
  cvv : String
  zip : String
deriving Repr, DecidableEq

/-! ### check_and_login (auto_bind_card.py lines 58-140)

The page interactions are replaced by a world record fixing the outcome of
every Playwright call.  wait_for_selector either returns an element or raises
a timeout; a raise at a given site is modelled by the corresponding Bool
field.  The bare `except:` at line 134 closes the try opened at line 73, so it
catches any exception raised between the email-field wait and the end of the
login flow that is not intercepted by the nested handlers (the 2FA block's
`except Exception` at line 118 and the recovery block's `except: pass` at
lines 127-128). -/

structure CLWorld where
  /-- wait_for_selector for input[type=email] (line 74) found the element;
  false models the 5s timeout raise, i.e. the already-logged-in reading. -/
  emailFound : Bool
  /-- filling the email or clicking identifierNext (lines 85-86) raised. -/
  fillEmailRaises : Bool
  /-- wait_for_selector for the password field (line 90, 15s) raised. -/
  passwordWaitRaises : Bool
  /-- filling the password or clicking passwordNext (lines 93-94) raised. -/
  fillPasswordRaises : Bool
  /-- the 2FA code field wait (lines 99-102) found an element; false models
  the 10s timeout raise, caught at line 118 and skipped. -/
  totpFound : Bool
  /-- handle_recovery_email_challenge at line 115 raised (caught at 118). -/
  recovery1Raises : Bool
  /-- handle_recovery_email_challenge at line 115 returned truthy. -/
  recovery1Handled : Bool
  /-- the recovery block at lines 122-128 raised (caught by `except: pass`).
  A 2FA fill/click failure at lines 110-111 is caught at line 118 and merges
  with the success path, so it needs no separate field. -/
  recovery2Raises : Bool
  /-- detect_manual_verification at line 125 returned truthy. -/
  manualDetected : Bool
  /-- detect_manual_verification at line 125 raised (caught by pass). -/
  manualRaises : Bool
deriving Repr, DecidableEq

/-- Embedding of check_and_login (auto_bind_card.py lines 58-140).  Returns
the (success, message) pair of the Python function.  Within the model the
outer try at line 69 can no longer raise (all raise sites lie inside the
inner try), so the outer handler at lines 138-140 is unreachable. -/
def check_and_login (w : CLWorld) (account_info : Option Account) : Bool × String :=
  if !w.emailFound then
    (true, "已登录")
  else
    match account_info with
    | none => (false, "需要登录但未提供账号信息")
    | some acc =>
      if w.fillEmailRaises then (true, "已登录")
      else if w.passwordWaitRaises then (true, "已登录")
      else if w.fillPasswordRaises then (true, "已登录")
      else
        let twofaFail : Bool :=
          if w.totpFound then
            if acc.secret ≠ "" then false
            else if w.recovery1Raises then false
            else !w.recovery1Handled
          else false
        if twofaFail then (false, "需要2FA或辅助邮箱验证，但未提供secret")
        else if w.recovery2Raises then (true, "登录成功")
        else if w.manualRaises then (true, "登录成功")
        else if w.manualDetected then (false, "需要人工完成验证码")
        else (true, "登录成功")

/-- Claim C10: when the email-entry field is detected (NeedsLogin) but a later
login step raises outside the dedicated 2FA sub-handler — filling the email,
waiting for the password field (the 15s timeout), or filling the password —
the bare except at line 134 catches it and check_and_login reports
(True, "已登录"), i.e. a mid-login failure is reported as success. -/
theorem c10_midlogin_exception_reported_success :
    ∀ (w : CLWorld) (acc : Account),
      w.emailFound = true →
      (w.fillEmailRaises = true ∨ w.passwordWaitRaises = true ∨
        w.fillPasswordRaises = true) →
      check_and_login w (some acc) = (true, "已登录") := by
  intro w acc he hr
  unfold check_and_login
  rw [he]
  rcases hr with h | h | h
  · simp [h]
  · rcases hf : w.fillEmailRaises <;> simp [h, hf]
  · rcases hf : w.fillEmailRaises <;> rcases hp : w.passwordWaitRaises <;>
      simp [h, hf, hp]

/-- Witness for C10: a concrete world where the email field is found and the
password wait times out. -/
theorem c10_midlogin_exception_reported_success_witness :
    ((⟨true, false, true, false, false, false, false, false, false, false⟩ :
        CLWorld).emailFound = true ∧
      (⟨true, false, true, false, false, false, false, false, false, false⟩ :
        CLWorld).passwordWaitRaises = true) ∧
    check_and_login
      (⟨true, false, true, false, false, false, false, false, false, false⟩ : CLWorld)
      (some ⟨"a@x.com", "pw", "rec@x.com", "SECRET"⟩) = (true, "已登录") :=
  ⟨⟨by decide, by decide⟩,
   c10_midlogin_exception_reported_success
     ⟨true, false, true, false, false, false, false, false, false, false⟩
     ⟨"a@x.com", "pw", "rec@x.com", "SECRET"⟩ (by decide) (Or.inr (Or.inl (by decide)))⟩

/-! ### auto_bind_card (auto_bind_card.py lines 142-832)

The funnel is a linear sequence of stages; every selector scan, click and
frame lookup is an external interaction whose outcome the world record fixes.
Clicks whose failures the source swallows with per-selector try/except
`continue` (CTA, subscribe, Got it, expired-card clicks, screenshots inside
guarded blocks) do not influence the observable result and therefore need no
oracle fields; only the interactions that steer a branch or can reach an
`except` that returns do. -/

/-- Observable side effects of one auto_bind_card run. -/
structure ATrace where
  /-- arguments passed to AccountManager.move_to_subscribed. -/
  moves : List String
  /-- (input index, value) pairs filled into the card-entry frame. -/
  fills : List (Nat × String)
  /-- the card-entry stage (Step 4, lines 583 onwards) was entered. -/
  cardEntryReached : Bool
deriving Repr, DecidableEq

/-- World record for one auto_bind_card run.  An `Option String` field is
`some e` when the corresponding site raises an exception with text e. -/
structure AutoWorld where
  /-- outcomes of the check_and_login stage. -/
  login : CLWorld
  /-- DEFAULT_CARD, loaded at import time from config or environment
  (lines 12-37); used when card_info is None (line 154-155). -/
  defaultCard : CardInfo
  /-- an exception raised in the region covered only by the outer try at
  line 157 (e.g. the initial screenshot at line 166), caught at line 828. -/
  outerRaises : Option String
  /-- the pre-check scan (lines 280-317) found a Subscribe affordance in the
  payment iframe or the page: the account already has a bound card. -/
  preSubscribeFound : Bool
  /-- an exception inside the verification try at line 341 (for example from
  AccountManager.move_to_subscribed at line 372), caught at line 485, which
  returns (True, "使用已有卡订阅成功 (Already bound)"). -/
  preVerifyRaises : Bool
  /-- the post-click re-scan (lines 342-365) found a Subscribed marker. -/
  preSubscribedFound : Bool
  /-- the error scan (lines 377-400) found an Error / declined marker,
  entering the card-replacement sub-flow that falls through to card entry. -/
  preErrorFound : Bool
  /-- an exception in the Add-card block (lines 515-573, e.g. the screenshot
  at line 552), caught at line 575 and returned as a typed failure. -/
  addCardRaises : Option String
  /-- a frame whose URL contains "instrumentmanager" (or, on retry,
  "payments.google.com") was found (lines 557-573). -/
  cardFrameFound : Bool
  /-- type attribute of each input element in the card-entry frame, in DOM
  order; "" models a missing attribute.  The length is the input count. -/
  inputTypes : List String
  /-- click/fill of the card-number input raised (lines 607-608). -/
  fillNumberRaises : Option String
  /-- click/fill of the expiry input raised (lines 625-627). -/
  fillExpRaises : Option String
  /-- click/fill of the CVV input raised (lines 640-641). -/
  fillCvvRaises : Option String
  /-- the zip-fill block raised (lines 651-662); caught at 663, non-fatal. -/
  fillZipRaises : Bool
  /-- a Save button matched one of the save selectors (lines 670-689). -/
  saveFound : Bool
  /-- clicking the Save button raised (line 694), a typed failure. -/
  saveClickRaises : Option String
  /-- a subscribe button was found after save (lines 709-763). -/
  subscribeFound : Bool
  /-- clicking the subscribe button raised, caught at line 821, which
  returns (True, "绑卡已完成"). -/
  subscribeClickRaises : Bool
  /-- an exception inside the final verification try at line 777, caught at
  line 813, which returns (True, "绑卡并订阅成功 (Subscribed)"). -/
  finalVerifyRaises : Bool
  /-- the final scan (lines 781-797) found a Subscribed marker. -/
  finalSubscribedFound : Bool
deriving Repr, DecidableEq

/-- The line handed to AccountManager.move_to_subscribed (lines 371, 803,
810): email----password----backup----secret with empty-string defaults. -/
def accountLine (acc : Account) : String :=
  acc.email ++ "----" ++ acc.password ++ "----" ++ acc.backup ++ "----" ++ acc.secret

/-- move_to_subscribed is called only when account_info is truthy and carries
a non-empty email (`if account_info and account_info.get('email')`). -/
def moveCalls (account_info : Option Account) : List String :=
  match account_info with
  | some acc => if acc.email ≠ "" then [accountLine acc] else []
  | none => []

/-- Index of the input that receives the zip code (lines 653-661): the first
index i in range(3, input_count) whose type attribute is "tel" or which is
the last input. -/
def zipFillIndex (types : List String) : Option Nat :=
  (List.range' 3 (types.length - 3)).find?
    (fun i => types.getD i "" == "tel" || i == types.length - 1)

/-- The fills performed by a card-entry stage in which the three mandatory
fills succeed (lines 604-664): index 0 the card number, index 1 the
normalized expiry written as MMYY with no separator (line 626), index 2 the
CVV, and, when a zip code is configured and the zip block does not
raise, the zip at the first qualifying index. -/
def cardFills (w : AutoWorld) (card : CardInfo) : List (Nat × String) :=
  [(0, card.number),
   (1, (normalize_exp_parts card.exp_month card.exp_year).1 ++
       (normalize_exp_parts card.exp_month card.exp_year).2),
   (2, card.cvv)] ++
  (if card.zip ≠ "" ∧ w.fillZipRaises = false then
     match zipFillIndex w.inputTypes with
     | some i => [(i, card.zip)]
     | none => []
   else [])

/-- Save-and-subscribe tail of the flow (lines 666-826): the (success,
message) outcome together with the move_to_subscribed calls it performs. -/
def saveAndSubscribe (w : AutoWorld) (account_info : Option Account) :
    (Bool × String) × List String :=
  if !w.saveFound then ((false, "未找到 Save card 按钮"), [])
  else
    match w.saveClickRaises with
    | some e => ((false, "点击 Save card 失败: " ++ e), [])
    | none =>
      if !w.subscribeFound then ((true, "绑卡成功"), [])
      else if w.subscribeClickRaises then ((true, "绑卡已完成"), [])
      else if w.finalVerifyRaises then ((true, "绑卡并订阅成功 (Subscribed)"), [])
      else if w.finalSubscribedFound then
        ((true, "绑卡并订阅成功 (Subscribed confirmed)"), moveCalls account_info)
      else
        ((true, "绑卡并订阅成功 (Subscribed)"), moveCalls account_info)

/-- Card-entry stage (Step 4 onwards, lines 583-826), entered once the card
form frame has been found. -/
def cardEntryStage (w : AutoWorld) (card : CardInfo) (account_info : Option Account) :
    (Bool × String) × ATrace :=
  if w.inputTypes.length < 3 then
    ((false, "输入框数量不足，只找到 " ++ String.mk (pyRepr w.inputTypes.length) ++ " 个"),
     ⟨[], [], true⟩)
  else
    match w.fillNumberRaises with
    | some e => ((false, "填写卡号失败: " ++ e), ⟨[], [], true⟩)
    | none =>
      match w.fillExpRaises with
      | some e => ((false, "填写过期日期失败: " ++ e), ⟨[], [(0, card.number)], true⟩)
      | none =>
        match w.fillCvvRaises with
        | some e =>
          ((false, "填写CVV失败: " ++ e),
           ⟨[], [(0, card.number),
                 (1, (normalize_exp_parts card.exp_month card.exp_year).1 ++
                     (normalize_exp_parts card.exp_month card.exp_year).2)], true⟩)
        | none =>
          (((saveAndSubscribe w account_info).1),
           ⟨(saveAndSubscribe w account_info).2, cardFills w card, true⟩)

/-- Steps 2-3 (lines 497-581): the iframe switch (frame_locator is lazy and
cannot raise, so the handler at lines 509-511 is unreachable), the Add-card
block, and the card-form frame lookup; then the card-entry stage. -/
def cardFlow (w : AutoWorld) (card : CardInfo) (account_info : Option Account) :
    (Bool × String) × ATrace :=
  match w.addCardRaises with
  | some e => ((false, "在 iframe 中点击 'Add card' 失败: " ++ e), ⟨[], [], false⟩)
  | none =>
    if !w.cardFrameFound then ((false, "未找到卡片输入表单 frame"), ⟨[], [], false⟩)
    else cardEntryStage w card account_info

/-- Embedding of auto_bind_card (auto_bind_card.py lines 142-832).  The
stages in order: login (lines 159-161), the outer-only raise region, the
already-bound pre-check (lines 267-495) with its verification, error and
replacement branches, then the card flow. -/
def auto_bind_card (w : AutoWorld) (card_info : Option CardInfo)
    (account_info : Option Account) : (Bool × String) × ATrace :=
  let card := card_info.getD w.defaultCard
  let login := check_and_login w.login account_info
  if !login.1 then ((false, "登录失败: " ++ login.2), ⟨[], [], false⟩)
  else
    match w.outerRaises with
    | some e => ((false, "绑卡错误: " ++ e), ⟨[], [], false⟩)
    | none =>
      if w.preSubscribeFound then
        if w.preVerifyRaises then
          ((true, "使用已有卡订阅成功 (Already bound)"), ⟨[], [], false⟩)
        else if w.preSubscribedFound then
          ((true, "使用已有卡订阅成功 (Already bound, Subs cribed)"),
           ⟨moveCalls account_info, [], false⟩)
        else if w.preErrorFound then cardFlow w card account_info
        else ((true, "使用已有卡订阅成功 (Already bound)"), ⟨[], [], false⟩)
      else cardFlow w card account_info

/-- A run reaches the card flow in exactly two ways: the pre-check found no
Subscribe affordance, or it found one and the re-scan found an Error marker
(card-replacement sub-flow, line 477 falls through). -/
def reachesCardFlow (w : AutoWorld) : Prop :=
  w.preSubscribeFound = false ∨
  (w.preSubscribeFound = true ∧ w.preVerifyRaises = false ∧
   w.preSubscribedFound = false ∧ w.preErrorFound = true)

theorem auto_bind_card_reaches (w : AutoWorld) (c : Option CardInfo)
    (a : Option Account) (hl : (check_and_login w.login a).1 = true)
    (ho : w.outerRaises = none) (hr : reachesCardFlow w) :
    auto_bind_card w c a = cardFlow w (c.getD w.defaultCard) a := by
  unfold auto_bind_card
  rcases hr with h | ⟨h1, h2, h3, h4⟩
  · simp [hl, ho, h]
  · simp [hl, ho, h1, h2, h3, h4]

/-! ### Claim C2: exception handling of auto_bind_card -/

/-- Claim C2, amended: auto_bind_card never propagates an exception — in the
model its type is total, every branch returning a (Bool, String) outcome —
and an exception reaching the outer handler at line 828 is converted into the
structured failure (False, "绑卡错误: " ++ e).  (The original claim that any
stage exception becomes a (False, message) result is refuted by
c2_exception_reported_success_counterexample: inner handlers convert some
stage exceptions into success results.) -/
theorem c2_outer_exception_structured_failure :
    ∀ (w : AutoWorld) (c : Option CardInfo) (a : Option Account) (e : String),
      (check_and_login w.login a).1 = true → w.outerRaises = some e →
      auto_bind_card w c a = ((false, "绑卡错误: " ++ e), ⟨[], [], false⟩) := by
  intro w c a e hl ho
  unfold auto_bind_card
  simp [hl, ho]

/-- World for the C2 witness and counterexample context: already logged in. -/
def loggedInCL : CLWorld :=
  ⟨false, false, false, false, false, false, false, false, false, false⟩

/-- World in which the verification block of the already-bound pre-check
raises (preVerifyRaises, the except at line 485). -/
def c2World : AutoWorld :=
  ⟨loggedInCL, ⟨"", "", "", "", ""⟩, some "screenshot failed",
   false, false, false, false,
   none, false, [],
   none, none, none, false,
   false, none, false, false, false, false⟩

/-- Witness for C2: a concrete world whose outer-region exception is turned
into the structured (False, message) result. -/
theorem c2_outer_exception_structured_failure_witness :
    ((check_and_login c2World.login none).1 = true ∧
      c2World.outerRaises = some "screenshot failed") ∧
    auto_bind_card c2World none none =
      ((false, "绑卡错误: " ++ "screenshot failed"), ⟨[], [], false⟩) :=
  ⟨⟨by decide, by decide⟩,
   c2_outer_exception_structured_failure c2World none none "screenshot failed"
     (by decide) (by decide)⟩

/-- World refuting C2 as stated: the pre-check finds a Subscribe affordance
and the verification block then raises (line 485's handler). -/
def c2xWorld : AutoWorld :=
  ⟨loggedInCL, ⟨"", "", "", "", ""⟩, none,
   true, true, false, false,
   none, false, [],
   none, none, none, false,
   false, none, false, false, false, false⟩

/-- Counterexample to C2 as stated: in c2xWorld an exception raised in the
verification stage (preVerifyRaises = true, the except at line 485) is
converted into a success result (True, ...), not into a (False, message)
result as the claim requires. -/
theorem c2_exception_reported_success_counterexample :
    c2xWorld.preVerifyRaises = true ∧
    auto_bind_card c2xWorld none none =
      ((true, "使用已有卡订阅成功 (Already bound)"), ⟨[], [], false⟩) :=
  ⟨by decide, by decide⟩

/-! ### Claim C4: already-bound pre-check with Subscribed confirmation -/

/-- Claim C4, amended: when the pre-check detects a Subscribe affordance,
the click is followed by a re-scan, and a Subscribed marker is found, the run
returns success and never invokes the card-entry stage; the Account Store
update via move_to_subscribed happens provided account info with a non-empty
email was supplied (line 370's guard; without it the run still returns
success but performs no update, see the counterexample). -/
theorem c4_already_bound_subscribed_flow :
    ∀ (w : AutoWorld) (c : Option CardInfo) (acc : Account),
      (check_and_login w.login (some acc)).1 = true → w.outerRaises = none →
      w.preSubscribeFound = true → w.preVerifyRaises = false →
      w.preSubscribedFound = true → acc.email ≠ "" →
      auto_bind_card w c (some acc) =
        ((true, "使用已有卡订阅成功 (Already bound, Subs cribed)"),
         ⟨[accountLine acc], [], false⟩) := by
  intro w c acc hl ho h1 h2 h3 he
  unfold auto_bind_card
  simp [hl, ho, h1, h2, h3, moveCalls, he]

/-- World for claim C4: pre-check finds Subscribe, re-scan finds Subscribed. -/
def c4World : AutoWorld :=
  ⟨loggedInCL, ⟨"", "", "", "", ""⟩, none,
   true, false, true, false,
   none, false, [],
   none, none, none, false,
   false, none, false, false, false, false⟩

/-- Account used by the C4 witness. -/
def c4Acc : Account := ⟨"a@x.com", "pw", "rec@x.com", "SECRET234"⟩

/-- Witness for C4: concrete world and account on the already-bound-confirmed
path; the trace records the move_to_subscribed call and no card-entry fills. -/
theorem c4_already_bound_subscribed_flow_witness :
    ((check_and_login c4World.login (some c4Acc)).1 = true ∧
      c4World.preSubscribedFound = true ∧ c4Acc.email ≠ "") ∧
    auto_bind_card c4World none (some c4Acc) =
      ((true, "使用已有卡订阅成功 (Already bound, Subs cribed)"),
       ⟨[accountLine c4Acc], [], false⟩) :=
  ⟨⟨by decide, by decide, by decide⟩,
   c4_already_bound_subscribed_flow c4World none c4Acc
     (by decide) (by decide) (by decide) (by decide) (by decide) (by decide)⟩

/-- Counterexample to C4 as stated: the same flow run without account info
(account_info = None, as when the browser remark is absent) returns success
on the Subscribed path, yet move_to_subscribed is never called (moves = []),
refuting the claim's unconditional "the Account Store status is moved to
subscribed via move_to_subscribed". -/
theorem c4_no_account_no_move_counterexample :
    auto_bind_card c4World none none =
      ((true, "使用已有卡订阅成功 (Already bound, Subs cribed)"), ⟨[], [], false⟩) := by
  decide

/-! ### Claim C5: optimistic defaults when no Subscribed marker is found -/

/-- Claim C5, amended: with no Subscribed and no Error marker after the
already-bound click, the run returns the soft success (True, "使用已有卡订阅成功
(Already bound)"); and when the post-save verification finds no Subscribed
marker, the run returns success with the weaker-confidence message
"绑卡并订阅成功 (Subscribed)" while the Account Store update occurs exactly as
in the marker-found path, i.e. whenever account info with a non-empty email is
present (without one the update is skipped, see the counterexample). -/
theorem c5_no_marker_soft_success :
    (∀ (w : AutoWorld) (c : Option CardInfo) (a : Option Account),
      (check_and_login w.login a).1 = true → w.outerRaises = none →
      w.preSubscribeFound = true → w.preVerifyRaises = false →
      w.preSubscribedFound = false → w.preErrorFound = false →
      auto_bind_card w c a =
        ((true, "使用已有卡订阅成功 (Already bound)"), ⟨[], [], false⟩)) ∧
    (∀ (w : AutoWorld) (c : Option CardInfo) (a : Option Account),
      (check_and_login w.login a).1 = true → w.outerRaises = none →
      reachesCardFlow w → w.addCardRaises = none → w.cardFrameFound = true →
      3 ≤ w.inputTypes.length →
      w.fillNumberRaises = none → w.fillExpRaises = none → w.fillCvvRaises = none →
      w.saveFound = true → w.saveClickRaises = none →
      w.subscribeFound = true → w.subscribeClickRaises = false →
      w.finalVerifyRaises = false → w.finalSubscribedFound = false →
      (auto_bind_card w c a).1 = (true, "绑卡并订阅成功 (Subscribed)") ∧
      (auto_bind_card w c a).2.moves = moveCalls a) := by
  constructor
  · intro w c a hl ho h1 h2 h3 h4
    unfold auto_bind_card
    simp [hl, ho, h1, h2, h3, h4]
  · intro w c a hl ho hr ha hf hn h1 h2 h3 hs hsc hsub hsubc hfv hfs
    rw [auto_bind_card_reaches w c a hl ho hr]
    unfold cardFlow cardEntryStage saveAndSubscribe
    simp [ha, hf, h1, h2, h3, hs, hsc, hsub, hsubc, hfv, hfs,
      show ¬(w.inputTypes.length < 3) by omega]

/-- World for claim C5: the post-save verification finds no marker. -/
def c5World : AutoWorld :=
  ⟨loggedInCL, ⟨"4000001234567890", "01", "30", "123", ""⟩, none,
   false, false, false, false,
   none, true, ["text", "text", "text"],
   none, none, none, false,
   true, none, true, false, false, false⟩

/-- Account used by the C5 witness. -/
def c5Acc : Account := ⟨"b@x.com", "pw5", "rec5@x.com", "SECRET567"⟩

/-- Witness for C5: the weaker-confidence success with the account-store
update recorded for a concrete account. -/
theorem c5_no_marker_soft_success_witness :
    ((check_and_login c5World.login (some c5Acc)).1 = true ∧
      c5World.finalSubscribedFound = false) ∧
    ((auto_bind_card c5World none (some c5Acc)).1 = (true, "绑卡并订阅成功 (Subscribed)") ∧
     (auto_bind_card c5World none (some c5Acc)).2.moves = moveCalls (some c5Acc)) :=
  ⟨⟨by decide, by decide⟩,
   c5_no_marker_soft_success.2 c5World none (some c5Acc)
     (by decide) (by decide) (Or.inl (by decide)) (by decide) (by decide)
     (by decide) (by decide) (by decide) (by decide) (by decide) (by decide)
     (by decide) (by decide) (by decide) (by decide)⟩

/-- Counterexample to C5 as stated: on the post-save no-marker path with no
account info the run still returns the weaker-confidence success, but the
Account Store update does not occur (moves = []), refuting the claim's
"the Account Store update to subscribed still occurs". -/
theorem c5_no_account_no_update_counterexample :
    auto_bind_card c5World none none =
      ((true, "绑卡并订阅成功 (Subscribed)"),
       ⟨[], [(0, "4000001234567890"), (1, "0130"), (2, "123")], true⟩) := by
  decide

/-! ### Claim C6: positional mapping of the card-entry fills -/

theorem zipFillIndex_some_spec (types : List String) (i : Nat)
    (h : zipFillIndex types = some i) :
    3 ≤ i ∧ (types.getD i "" = "tel" ∨ i = types.length - 1) := by
  have hp := List.find?_some h
  have hm := List.mem_of_find?_eq_some h
  have hr := List.mem_range'_1.mp hm
  simp only [Bool.or_eq_true, beq_iff_eq] at hp
  exact ⟨hr.1, hp⟩

theorem zipFillIndex_isSome (types : List String) (h : 4 ≤ types.length) :
    ∃ i, zipFillIndex types = some i := by
  have hs : (zipFillIndex types).isSome := by
    unfold zipFillIndex
    rw [List.find?_isSome]
    refine ⟨types.length - 1, ?_, ?_⟩
    · exact List.mem_range'_1.mpr ⟨by omega, by omega⟩
    · simp
  exact Option.isSome_iff_exists.mp hs

theorem cardEntryStage_fills (w : AutoWorld) (card : CardInfo) (a : Option Account)
    (hn : 3 ≤ w.inputTypes.length) (h1 : w.fillNumberRaises = none)
    (h2 : w.fillExpRaises = none) (h3 : w.fillCvvRaises = none) :
    (cardEntryStage w card a).2.fills = cardFills w card := by
  unfold cardEntryStage
  simp [h1, h2, h3, show ¬(w.inputTypes.length < 3) by omega]

/-- Claim C6: once the card-entry stage runs with its three mandatory fills
succeeding, input 0 receives the card number, input 1 the single string
MM ++ YY produced by normalize_exp_parts with no separator, and input 2 the
CVV; when a zip code is configured, a 4th-or-later input receives it, chosen
as the first index from 3 on whose type attribute is "tel" or which is the
last input. -/
theorem c6_positional_fill_mapping :
    ∀ (w : AutoWorld) (card : CardInfo) (a : Option Account),
      (check_and_login w.login a).1 = true → w.outerRaises = none →
      reachesCardFlow w → w.addCardRaises = none → w.cardFrameFound = true →
      3 ≤ w.inputTypes.length →
      w.fillNumberRaises = none → w.fillExpRaises = none → w.fillCvvRaises = none →
      (card.zip = "" →
        (auto_bind_card w (some card) a).2.fills =
          [(0, card.number),
           (1, (normalize_exp_parts card.exp_month card.exp_year).1 ++
               (normalize_exp_parts card.exp_month card.exp_year).2),
           (2, card.cvv)]) ∧
      (card.zip ≠ "" → w.fillZipRaises = false → 4 ≤ w.inputTypes.length →
        ∃ i, (auto_bind_card w (some card) a).2.fills =
            [(0, card.number),
             (1, (normalize_exp_parts card.exp_month card.exp_year).1 ++
                 (normalize_exp_parts card.exp_month card.exp_year).2),
             (2, card.cvv), (i, card.zip)] ∧
          3 ≤ i ∧ (w.inputTypes.getD i "" = "tel" ∨ i = w.inputTypes.length - 1)) := by
  intro w card a hl ho hr ha hf hn h1 h2 h3
  rw [auto_bind_card_reaches w (some card) a hl ho hr]
  unfold cardFlow
  rw [ha]
  simp only [hf, Bool.not_true, Bool.false_eq_true, if_false]
  rw [show (Option.getD (some card) w.defaultCard) = card from rfl]
  rw [cardEntryStage_fills w card a hn h1 h2 h3]
  constructor
  · intro hz
    unfold cardFills
    rw [if_neg (fun hc => hc.1 hz)]
    simp
  · intro hz hzr h4
    obtain ⟨i, hi⟩ := zipFillIndex_isSome w.inputTypes h4
    obtain ⟨hge, hcond⟩ := zipFillIndex_some_spec w.inputTypes i hi
    refine ⟨i, ?_, hge, hcond⟩
    unfold cardFills
    rw [if_pos ⟨hz, hzr⟩, hi]
    simp

/-- World for the C6 witness: four inputs, the last of type tel. -/
def c6World : AutoWorld :=
  ⟨loggedInCL, ⟨"", "", "", "", ""⟩, none,
   false, false, false, false,
   none, true, ["text", "text", "text", "tel"],
   none, none, none, false,
   true, none, false, false, false, false⟩

/-- Card used by the C6 witness, with a configured zip code. -/
def c6Card : CardInfo := ⟨"5555444433332222", "11", "27", "321", "75001"⟩

/-- Witness for C6: concrete run in which the three positional fills and the
zip fill are all recorded. -/
theorem c6_positional_fill_mapping_witness :
    ((check_and_login c6World.login none).1 = true ∧
      3 ≤ c6World.inputTypes.length ∧ c6Card.zip ≠ "") ∧
    (∃ i, (auto_bind_card c6World (some c6Card) none).2.fills =
        [(0, c6Card.number),
         (1, (normalize_exp_parts c6Card.exp_month c6Card.exp_year).1 ++
             (normalize_exp_parts c6Card.exp_month c6Card.exp_year).2),
         (2, c6Card.cvv), (i, c6Card.zip)] ∧
      3 ≤ i ∧ (c6World.inputTypes.getD i "" = "tel" ∨ i = c6World.inputTypes.length - 1)) :=
  ⟨⟨by decide, by decide, by decide⟩,
   (c6_positional_fill_mapping c6World c6Card none
     (by decide) (by decide) (Or.inl (by decide)) (by decide) (by decide)
     (by decide) (by decide) (by decide) (by decide)).2
     (by decide) (by decide) (by decide)⟩

/-! ### Claim C7: fewer than three inputs is a typed fatal failure -/

/-- Claim C7: when the card-entry frame holds fewer than 3 inputs the run
fails with the typed message reporting the count (line 601), performing no
fill (no guessing of field positions) and making no further attempt in the
run — the stage is entered exactly once and returns immediately. -/
theorem c7_insufficient_inputs_typed_failure :
    ∀ (w : AutoWorld) (card : CardInfo) (a : Option Account),
      (check_and_login w.login a).1 = true → w.outerRaises = none →
      reachesCardFlow w → w.addCardRaises = none → w.cardFrameFound = true →
      w.inputTypes.length < 3 →
      auto_bind_card w (some card) a =
        ((false, "输入框数量不足，只找到 " ++ String.mk (pyRepr w.inputTypes.length) ++ " 个"),
         ⟨[], [], true⟩) := by
  intro w card a hl ho hr ha hf hn
  rw [auto_bind_card_reaches w (some card) a hl ho hr]
  unfold cardFlow cardEntryStage
  simp [ha, hf, hn]

/-- World for the C7 witness: only two inputs in the card frame. -/
def c7World : AutoWorld :=
  ⟨loggedInCL, ⟨"", "", "", "", ""⟩, none,
   false, false, false, false,
   none, true, ["text", "text"],
   none, none, none, false,
   true, none, false, false, false, false⟩

/-- Witness for C7: the concrete run fails with the count in the message and
an empty fill trace. -/
theorem c7_insufficient_inputs_typed_failure_witness :
    ((check_and_login c7World.login none).1 = true ∧ c7World.inputTypes.length < 3) ∧
    auto_bind_card c7World (some ⟨"4", "1", "1", "1", ""⟩) none =
      ((false, "输入框数量不足，只找到 " ++ String.mk (pyRepr c7World.inputTypes.length) ++ " 个"),
       ⟨[], [], true⟩) :=
  ⟨⟨by decide, by decide⟩,
   c7_insufficient_inputs_typed_failure c7World ⟨"4", "1", "1", "1", ""⟩ none
     (by decide) (by decide) (Or.inl (by decide)) (by decide) (by decide) (by decide)⟩

/-! ### bind_card_sync (lines 917-1011) and test_bind_card_with_browser
(lines 835-914) -/

/-- Python remark.split('----') mapped back to strings. -/
def remarkParts (remark : String) : List String :=
  (pySplitSep "----".toList remark.toList).map String.mk

/-- Account info built from a browser remark (bind_card_sync lines 948-956 and
test_bind_card_with_browser lines 853-861): part i stripped, empty when the
part is missing. -/
def accountFromRemark (remark : String) : Account :=
  ⟨String.mk (stripChars ((remarkParts remark).getD 0 "").toList),
   String.mk (stripChars ((remarkParts remark).getD 1 "").toList),
   String.mk (stripChars ((remarkParts remark).getD 2 "").toList),
   String.mk (stripChars ((remarkParts remark).getD 3 "").toList)⟩

/-- The card-number fragment written to the log (line 993): the last 4
characters of the supplied card number, or the literal "N/A" when card_info
is falsy. -/
def cardLast4 (card_info : Option CardInfo) : String :=
  match card_info with
  | some c => String.mk (takeLast c.number.toList 4)
  | none => "N/A"

/-- Observable side effects of one bind_card_sync run. -/
structure STrace where
  /-- number of closeBrowser calls performed. -/
  closes : Nat
  /-- lines appended to 已绑卡号.txt. -/
  logLines : List String
deriving Repr, DecidableEq

/-- World record for bind_card_sync. -/
structure SWorld where
  /-- remark of get_browser_info(browser_id); none when no info is found. -/
  browserInfo : Option String
  /-- openBrowser returned success (line 963). -/
  openSuccess : Bool
  /-- res['data']['ws'] (line 966); none models a missing endpoint. -/
  wsEndpoint : Option String
  /-- connect_over_cdp raised (line 973, caught at 1005). -/
  connectRaises : Option String
  /-- page.goto raised (line 981, caught at 1005). -/
  gotoRaises : Option String
  /-- world of the inner auto_bind_card run. -/
  auto : AutoWorld
  /-- datetime.now() formatted (line 994). -/
  now : String
deriving Repr, DecidableEq

/-- Embedding of bind_card_sync (lines 917-1011).  The missing-ws-endpoint
path calls closeBrowser explicitly (line 968) before the try whose finally
(lines 1007-1009) closes only when close_after is set; the browser.close()
in the inner finally (line 1001) disconnects CDP and is not closeBrowser.
The failure message for an unsuccessful openBrowser interpolates the raw
response (line 964); the model keeps the fixed prefix only. -/
def bind_card_sync (w : SWorld) (card_info : Option CardInfo)
    (close_after : Bool) : (Bool × String) × STrace :=
  match w.browserInfo with
  | none => ((false, "找不到浏览器信息"), ⟨0, []⟩)
  | some remark =>
    let acc := accountFromRemark remark
    if !w.openSuccess then ((false, "无法打开浏览器"), ⟨0, []⟩)
    else
      match w.wsEndpoint with
      | none => ((false, "无法获取 WebSocket 端点"), ⟨1, []⟩)
      | some _ =>
        let closes := if close_after then 1 else 0
        match w.connectRaises with
        | some e => ((false, "绑卡错误: " ++ e), ⟨closes, []⟩)
        | none =>
          match w.gotoRaises with
          | some e => ((false, "绑卡错误: " ++ e), ⟨closes, []⟩)
          | none =>
            let r := auto_bind_card w.auto card_info (some acc)
            if r.1.1 then
              (r.1, ⟨closes,
                [acc.email ++ "----" ++ cardLast4 card_info ++ "----" ++ w.now]⟩)
            else (r.1, ⟨closes, []⟩)

/-- World record for test_bind_card_with_browser. -/
structure TWorld where
  /-- remark of get_browser_info(browser_id); none when no info is found. -/
  browserInfo : Option String
  /-- openBrowser returned success (line 870). -/
  openSuccess : Bool
  /-- connect_over_cdp raised (line 881, caught at 906). -/
  connectRaises : Option String
  /-- page.goto raised (line 888, caught at 906). -/
  gotoRaises : Option String
  /-- world of the inner auto_bind_card run. -/
  auto : AutoWorld
deriving Repr, DecidableEq

/-- Embedding of test_bind_card_with_browser (lines 835-914).  Its finally
block (lines 911-914) deliberately leaves the commented-out closeBrowser call
unexecuted, so the session is never released; the second component counts
closeBrowser calls and is 0 on every path.  On completion the function
returns True regardless of the inner success flag (line 904). -/
def test_bind_card_with_browser (w : TWorld) (account_info : Option Account) :
    (Bool × String) × Nat :=
  let acc : Option Account :=
    match account_info with
    | some a => some a
    | none =>
      match w.browserInfo with
      | none => none
      | some remark =>
        if 4 ≤ (remarkParts remark).length then some (accountFromRemark remark)
        else none
  if !w.openSuccess then ((false, "打开浏览器失败"), 0)
  else
    match w.connectRaises with
    | some e => ((false, e), 0)
    | none =>
      match w.gotoRaises with
      | some e => ((false, e), 0)
      | none => ((true, (auto_bind_card w.auto none acc).1.2), 0)

/-! ### Claim C3: release of the browser session -/

/-- Claim C3, amended: bind_card_sync releases the session exactly once on
every exit path after openBrowser succeeded when close_after is true (the
default); when close_after is false it keeps the session open except on the
missing-WebSocket-endpoint path, which closes it regardless of the flag; and
test_bind_card_with_browser never calls closeBrowser at all — keeping the
browser open is hardcoded there (lines 911-914), not governed by a flag. -/
theorem c3_close_discipline :
    (∀ (w : SWorld) (c : Option CardInfo) (ca : Bool),
      (w.browserInfo = none → (bind_card_sync w c ca).2.closes = 0) ∧
      (w.openSuccess = false → (bind_card_sync w c ca).2.closes = 0) ∧
      (w.browserInfo ≠ none → w.openSuccess = true → w.wsEndpoint = none →
        (bind_card_sync w c ca).2.closes = 1) ∧
      (w.browserInfo ≠ none → w.openSuccess = true → w.wsEndpoint ≠ none →
        (bind_card_sync w c ca).2.closes = if ca then 1 else 0)) ∧
    (∀ (w : TWorld) (a : Option Account), (test_bind_card_with_browser w a).2 = 0) := by
  constructor
  · intro w c ca
    refine ⟨?_, ?_, ?_, ?_⟩
    · intro h
      simp [bind_card_sync, h]
    · intro h
      cases hb : w.browserInfo <;> simp [bind_card_sync, h, hb]
    · intro hb ho hw
      rcases hbi : w.browserInfo with _ | r
      · exact absurd hbi hb
      · simp [bind_card_sync, hbi, ho, hw]
    · intro hb ho hw
      rcases hbi : w.browserInfo with _ | r
      · exact absurd hbi hb
      · rcases hwe : w.wsEndpoint with _ | s
        · exact absurd hwe hw
        · cases hc : w.auto.login.emailFound <;>
            cases hcr : w.connectRaises <;> cases hg : w.gotoRaises <;>
            simp [bind_card_sync, hbi, ho, hwe, hcr, hg] <;> split <;> rfl
  · intro w a
    cases ho : w.openSuccess <;> cases hc : w.connectRaises <;>
      cases hg : w.gotoRaises <;> simp [test_bind_card_with_browser, ho, hc, hg]

/-- Auto world used by claim C3: already bound with Subscribed confirmed. -/
def c3Auto : AutoWorld :=
  ⟨loggedInCL, ⟨"", "", "", "", ""⟩, none,
   true, false, true, false,
   none, false, [],
   none, none, none, false,
   false, none, false, false, false, false⟩

/-- SWorld used by the C3 witness: a fully successful acquisition. -/
def c3SWorld : SWorld :=
  ⟨some "d@x.com----pw----rec----sec", true, some "ws://127.0.0.1:1", none, none,
   c3Auto, "2026-02-03 04:05:06"⟩

/-- Witness for C3: with close_after = true the successful run closes the
session exactly once. -/
theorem c3_close_discipline_witness :
    (c3SWorld.browserInfo ≠ none ∧ c3SWorld.openSuccess = true ∧
      c3SWorld.wsEndpoint ≠ none) ∧
    (bind_card_sync c3SWorld none true).2.closes = if true then 1 else 0 :=
  ⟨⟨by decide, by decide, by decide⟩,
   (c3_close_discipline.1 c3SWorld none true).2.2.2 (by decide) (by decide) (by decide)⟩

/-- TWorld refuting C3 as stated: openBrowser succeeds and the run completes. -/
def c3TWorld : TWorld :=
  ⟨some "d@x.com----pw----rec----sec", true, none, none, c3Auto⟩

/-- Counterexample to C3 as stated: test_bind_card_with_browser acquires a
session (openSuccess), finishes the run, and calls closeBrowser zero times —
not exactly once — although the function exposes no keep-open flag by which
the caller could have requested this. -/
theorem c3_session_never_released_counterexample :
    c3TWorld.openSuccess = true ∧
    test_bind_card_with_browser c3TWorld none =
      ((true, "使用已有卡订阅成功 (Already bound, Subs cribed)"), 0) :=
  ⟨by decide, by decide⟩

/-! ### Claim C9: the success log line -/

theorem cardLast4_ne_full (cc : CardInfo) (h : 4 < cc.number.toList.length) :
    cardLast4 (some cc) ≠ cc.number := by
  intro heq
  have hd : takeLast cc.number.toList 4 = cc.number.data := congrArg String.data heq
  have hl : (takeLast cc.number.toList 4).length = cc.number.data.length :=
    congrArg List.length hd
  unfold takeLast at hl
  rw [List.length_drop] at hl
  have hsame : cc.number.toList.length = cc.number.data.length := rfl
  omega

/-- Claim C9, amended: on every successful bind_card_sync run exactly one log
line email----last4----timestamp is appended, where last4 is the last 4
characters of the supplied card number when card_info is provided — in which
case a card number longer than 4 characters is never written in full — and
the literal "N/A" when card_info is None even though the default card was
used (see the counterexample). -/
theorem c9_success_log_line :
    ∀ (w : SWorld) (c : Option CardInfo) (ca : Bool) (remark : String),
      w.browserInfo = some remark →
      (bind_card_sync w c ca).1.1 = true →
      ((bind_card_sync w c ca).2.logLines =
        [(accountFromRemark remark).email ++ "----" ++ cardLast4 c ++ "----" ++ w.now] ∧
       ∀ cc : CardInfo, c = some cc → 4 < cc.number.toList.length →
         cardLast4 c ≠ cc.number) := by
  intro w c ca remark hb hs
  constructor
  · cases ho : w.openSuccess
    · exfalso
      simp [bind_card_sync, hb, ho] at hs
    · rcases hwe : w.wsEndpoint with _ | s
      · exfalso
        simp [bind_card_sync, hb, ho, hwe] at hs
      · rcases hcr : w.connectRaises with _ | e
        · rcases hg : w.gotoRaises with _ | e
          · by_cases hr : (auto_bind_card w.auto c (some (accountFromRemark remark))).1.1 = true
            · simp [bind_card_sync, hb, ho, hwe, hcr, hg, hr]
            · exfalso
              simp [bind_card_sync, hb, ho, hwe, hcr, hg, hr] at hs
          · exfalso
            simp [bind_card_sync, hb, ho, hwe, hcr, hg] at hs
        · exfalso
          simp [bind_card_sync, hb, ho, hwe, hcr] at hs
  · intro cc hcc hlen
    rw [hcc]
    exact cardLast4_ne_full cc hlen

/-- Auto world used by claim C9: already bound, Subscribed confirmed, with
the default card loaded from configuration. -/
def c9Auto : AutoWorld :=
  ⟨loggedInCL, ⟨"4111111111111111", "01", "30", "123", ""⟩, none,
   true, false, true, false,
   none, false, [],
   none, none, none, false,
   false, none, false, false, false, false⟩

/-- SWorld used by claim C9. -/
def c9World : SWorld :=
  ⟨some "c@x.com----pw----rec----sec", true, some "ws://127.0.0.1:2", none, none,
   c9Auto, "2026-01-02 03:04:05"⟩

/-- Card supplied in the C9 witness run. -/
def c9Card : CardInfo := ⟨"5105105105105100", "02", "29", "999", ""⟩

/-- Witness for C9: a successful run with a supplied card logs exactly one
line carrying the last-4 fragment, which differs from the full number. -/
theorem c9_success_log_line_witness :
    (c9World.browserInfo = some "c@x.com----pw----rec----sec" ∧
      (bind_card_sync c9World (some c9Card) true).1.1 = true) ∧
    ((bind_card_sync c9World (some c9Card) true).2.logLines =
      [(accountFromRemark "c@x.com----pw----rec----sec").email ++ "----" ++
        cardLast4 (some c9Card) ++ "----" ++ c9World.now] ∧
     ∀ cc : CardInfo, (some c9Card : Option CardInfo) = some cc →
       4 < cc.number.toList.length → cardLast4 (some c9Card) ≠ cc.number) :=
  ⟨⟨by decide, by decide⟩,
   c9_success_log_line c9World (some c9Card) true "c@x.com----pw----rec----sec"
     (by decide) (by decide)⟩

/-- Counterexample to C9 as stated: with card_info = None the run uses the
default card (number 4111111111111111) yet logs the literal "N/A" instead of
the last 4 digits 1111 of the card number actually used. -/
theorem c9_default_card_logged_na_counterexample :
    (bind_card_sync c9World none true).1.1 = true ∧
    (bind_card_sync c9World none true).2.logLines =
      ["c@x.com----N/A----2026-01-02 03:04:05"] ∧
    c9Auto.defaultCard.number = "4111111111111111" ∧
    String.mk (takeLast c9Auto.defaultCard.number.toList 4) = "1111" :=
  ⟨by decide, by decide, by decide, by decide⟩
